import Mathlib

/-!
Verification development for the math-solver repository.

The embedding below translates the relevant parts of the source into Lean:

* JavaScript strings are modelled as `List Char` (`JSStr`), with the string
  operations the code uses (`trim`, `startsWith`, `replace`-first-occurrence)
  defined over that representation.
* `src/services/geminiService.ts`: the two exported solver wrappers are pure
  functions of the outcome of the external `generateContent` call, which is
  modelled by `SolveOutcome` (the call resolves with text, or throws a
  JavaScript value that is either an `Error` instance carrying a message or
  some non-`Error` value).
* `src/components/ImageCropModal.tsx`: `getCroppedImg` is modelled as a pure
  function from image geometry, the completed crop rectangle, the requested
  file type and the device pixel ratio to a description of the canvas
  operations performed (raster allocation, transform, smoothing, the single
  `drawImage` blit, and the `toDataURL` encoding). The availability of the 2d
  context is an explicit boolean input of the environment.
* `src/App.tsx`: the component's `useState` fields form `AppModel`; the event
  handlers become functions on `AppModel`. The two async handlers are split at
  their single `await` point: `handleCropConfirmStart` / `handleTextSubmit`
  perform everything before the solver call, and `resolveSolve` is the shared
  continuation that runs when the solver promise settles (`pending` records
  which continuation is outstanding). `URL.createObjectURL` /
  `URL.revokeObjectURL` are instrumented as `acquire` / `release` over handle
  identifiers so that resource-lifecycle claims are stated over the `live` and
  `releases` ledgers. `log` records each invocation of a solve collaborator.
* `step` composes the handlers with the JSX rendering guards of `App.tsx`
  (which controls are mounted and enabled in which `appState`), giving the
  session state machine driven by discrete events.
-/

/-- JavaScript strings, modelled as lists of characters. -/
abbrev JSStr := List Char

/-- Whitespace recognised by the model of `String.prototype.trim`
(ASCII whitespace; sufficient for the properties stated here). -/
def jsWhitespace (c : Char) : Bool :=
  c == ' ' || c == '\t' || c == '\n' || c == '\r'

/-- Model of `s.trim()`: strip leading and trailing whitespace. -/
def jsTrim (s : JSStr) : JSStr :=
  ((s.dropWhile jsWhitespace).reverse.dropWhile jsWhitespace).reverse

/-- Model of `s.replace(pat, rep)` for string `pat`: replace the first
occurrence of `pat` in `s`, or return `s` unchanged if `pat` does not occur.
(As in JavaScript, an empty pattern matches at position 0.) -/
def jsReplaceFirst (s pat rep : JSStr) : JSStr :=
  match s with
  | [] => if pat.isEmpty then rep else []
  | c :: rest =>
    if pat.isPrefixOf s then rep ++ s.drop pat.length
    else c :: jsReplaceFirst rest pat rep

/-- Model of `s.startsWith(pat)`. -/
def jsStartsWith (s pat : JSStr) : Bool :=
  pat.isPrefixOf s

/-! ## src/services/geminiService.ts -/

/-- A JavaScript thrown value, as discriminated by the service's
`error instanceof Error` check: an `Error` instance carrying a `message`
string, or any other thrown value. -/
inductive JsThrown where
  | errorInstance (message : JSStr)
  | nonError
deriving DecidableEq

/-- Outcome of the external `ai.models.generateContent` call (together with
reading `response.text`): it resolves with text, or it throws. -/
inductive SolveOutcome where
  | ok (text : JSStr)
  | threw (e : JsThrown)
deriving DecidableEq

/-- The fallback returned by `solveMathProblemFromImage` for a non-`Error`
thrown value. -/
def unknownImageError : JSStr :=
  "An unknown error occurred while analyzing the image.".toList

/-- The fallback returned by `solveMathProblemFromText` for a non-`Error`
thrown value. -/
def unknownTextError : JSStr :=
  "An unknown error occurred while solving the problem.".toList

/-- `solveMathProblemFromImage` (geminiService.ts, lines 47–76): the entire
call is wrapped in try/catch; a caught `Error` instance is rendered as
`"Error: " + message`, any other thrown value as a fixed fallback string.
The function itself never rejects. -/
def solveMathProblemFromImage (outcome : SolveOutcome) : JSStr :=
  match outcome with
  | .ok t => t
  | .threw (.errorInstance msg) => "Error: ".toList ++ msg
  | .threw .nonError => unknownImageError

/-- `solveMathProblemFromText` (geminiService.ts, lines 78–98): same shape as
the image variant, with its own fallback string. -/
def solveMathProblemFromText (outcome : SolveOutcome) : JSStr :=
  match outcome with
  | .ok t => t
  | .threw (.errorInstance msg) => "Error: ".toList ++ msg
  | .threw .nonError => unknownTextError

/-! ## src/components/ImageCropModal.tsx — getCroppedImg -/

/-- The `<img>` element handed to `getCroppedImg`: natural (source) pixel
dimensions and rendered (display) dimensions. Numbers are modelled as `ℚ`. -/
structure ImageEl where
  naturalWidth : ℚ
  naturalHeight : ℚ
  width : ℚ
  height : ℚ
deriving DecidableEq

/-- A rectangle `{x, y, width, height}` (the `PixelCrop` of react-image-crop,
in display pixels). -/
structure Rect where
  x : ℚ
  y : ℚ
  width : ℚ
  height : ℚ
deriving DecidableEq

/-- A rectangle in source-image pixel space (spec §3 `SourceRect`). -/
structure SourceRect where
  x : ℚ
  y : ℚ
  width : ℚ
  height : ℚ
deriving DecidableEq

/-- `ctx.imageSmoothingQuality` values. -/
inductive SmoothingQuality where
  | low
  | medium
  | high
deriving DecidableEq

/-- Failures of `getCroppedImg`. The code's only rejection is
`'Could not get canvas context.'` (`contextUnavailable`); `invalidRegion` is
the defensive-check failure named by the spec's error taxonomy (§7), included
so that claims about it can be stated. -/
inductive CropError where
  | contextUnavailable
  | invalidRegion
deriving DecidableEq

/-- Description of the canvas produced by `getCroppedImg`: the final raster
allocation, the transform set via `setTransform(d,0,0,d,0,0)`, the smoothing
quality, the source and destination rectangles of the single `drawImage`
call, how many blits were issued, and the media type passed to
`toDataURL`. -/
structure CanvasResult where
  canvasWidth : ℚ
  canvasHeight : ℚ
  transform : ℚ
  smoothing : SmoothingQuality
  srcX : ℚ
  srcY : ℚ
  srcW : ℚ
  srcH : ℚ
  destX : ℚ
  destY : ℚ
  destW : ℚ
  destH : ℚ
  blits : Nat
  payloadType : JSStr
deriving DecidableEq

/-- `getCroppedImg` (ImageCropModal.tsx, lines 11–49). `ctxOk` is whether
`canvas.getContext('2d')` returns a context; `devicePixelRatio` is
`window.devicePixelRatio` (the code applies `|| 1`). The first
`canvas.width = crop.width` assignment is immediately overwritten by
`crop.width * pixelRatio`, so only the final allocation is recorded. -/
def getCroppedImg (image : ImageEl) (crop : Rect) (fileType : JSStr)
    (devicePixelRatio : ℚ) (ctxOk : Bool) : Except CropError CanvasResult :=
  let scaleX := image.naturalWidth / image.width
  let scaleY := image.naturalHeight / image.height
  if ctxOk = false then
    .error .contextUnavailable
  else
    let pixelRatio := if devicePixelRatio = 0 then 1 else devicePixelRatio
    .ok
      { canvasWidth := crop.width * pixelRatio
        canvasHeight := crop.height * pixelRatio
        transform := pixelRatio
        smoothing := .high
        srcX := crop.x * scaleX
        srcY := crop.y * scaleY
        srcW := crop.width * scaleX
        srcH := crop.height * scaleY
        destX := 0
        destY := 0
        destW := crop.width
        destH := crop.height
        blits := 1
        payloadType := fileType }

/-- The Coordinate Mapper as the SPEC words it (§4.1): `scaleX =
naturalWidth/displayWidth`, `scaleY = naturalHeight/displayHeight`, each
component of the selection scaled independently. Stated separately from
`getCroppedImg` so the code's mapping can be compared against it. -/
def mapSelectionSpec (naturalW naturalH displayW displayH : ℚ) (rect : Rect) :
    SourceRect :=
  let scaleX := naturalW / displayW
  let scaleY := naturalH / displayH
  { x := rect.x * scaleX
    y := rect.y * scaleY
    width := rect.width * scaleX
    height := rect.height * scaleY }

/-- `handleConfirmCrop` inside the modal (ImageCropModal.tsx, lines 76–89),
from the point where `completedCrop` and the image ref exist: it calls
`getCroppedImg` with the hard-coded file type `'image/jpeg'` and, on success,
invokes `onConfirm(base64Payload, 'image/jpeg')`. On failure it logs and
re-enables the modal (no call to `onConfirm`). The returned pair is
(the canvas/payload handed out as base64, the mime type argument). -/
def handleConfirmCrop (img : ImageEl) (crop : Rect) (devicePixelRatio : ℚ)
    (ctxOk : Bool) : Option (CanvasResult × JSStr) :=
  match getCroppedImg img crop ("image/jpeg".toList) devicePixelRatio ctxOk with
  | .error _ => none
  | .ok res => some (res, "image/jpeg".toList)

/-! ## src/App.tsx — state, handlers, and the session state machine -/

/-- `AppState` (src/types — the enum used by `App.tsx`): the spec's `Idle`,
`Selecting`, `Processing`, `Success`, `Failed` map to `IDLE`, `CROPPING`,
`ANALYZING`, `SUCCESS`, `ERROR`. -/
inductive AppState where
  | IDLE
  | CROPPING
  | ANALYZING
  | SUCCESS
  | ERROR
deriving DecidableEq

/-- Which solver continuation is outstanding after the `await` in
`handleCropConfirm` respectively `handleTextSubmit`. -/
inductive Origin where
  | image
  | text
deriving DecidableEq

/-- Instrumentation of the external solve collaborators: one entry per
invocation, with the mime type passed for image submissions. -/
inductive CallTag where
  | solveImage (mimeType : JSStr)
  | solveText
deriving DecidableEq

/-- The `useState` fields of the `App` component, plus instrumentation:
`pending` marks the outstanding solver continuation; `nextId`, `live`,
`releases` form the object-URL handle ledger (`URL.createObjectURL`
returns handle `nextId`; `URL.revokeObjectURL` moves a handle out of `live`
and appends it to `releases`); `log` records solver invocations.
`imageToCrop` stores the handle together with the uploaded file's media
type. -/
structure AppModel where
  appState : AppState
  imageToCrop : Option (Nat × JSStr)
  uploadedImage : Option Nat
  textProblem : JSStr
  submittedText : Option JSStr
  solution : Option JSStr
  error : Option JSStr
  pending : Option Origin
  nextId : Nat
  live : List Nat
  releases : List Nat
  log : List CallTag
deriving DecidableEq

/-- `URL.createObjectURL`: mint a fresh handle and add it to the live set. -/
def acquire (m : AppModel) : Nat × AppModel :=
  (m.nextId, { m with nextId := m.nextId + 1, live := m.live ++ [m.nextId] })

/-- `URL.revokeObjectURL`: remove the handle from the live set; every call is
appended to `releases` so double-releases are observable. -/
def release (m : AppModel) (h : Nat) : AppModel :=
  { m with live := m.live.erase h, releases := m.releases ++ [h] }

/-- `handleImageSelect` (App.tsx, lines 20–27): revoke the previous pending
image's URL if one exists, create a URL for the new file, enter `CROPPING`. -/
def handleImageSelect (m : AppModel) (fileType : JSStr) : AppModel :=
  let m1 := match m.imageToCrop with
    | some hf => release m hf.1
    | none => m
  let (h, m2) := acquire m1
  { m2 with imageToCrop := some (h, fileType), appState := .CROPPING }

/-- `handleCropConfirm` (App.tsx, lines 29–51) up to its `await`: create an
object URL for the cropped blob, clear result fields, enter `ANALYZING`, set
`imageToCrop` to `null` — note the source's cropper URL is NOT revoked here —
and invoke `solveMathProblemFromImage` with the given mime type. -/
def handleCropConfirmStart (m : AppModel) (mimeType : JSStr) : AppModel :=
  let (h, m1) := acquire m
  { m1 with
    uploadedImage := some h
    submittedText := none
    appState := .ANALYZING
    error := none
    solution := none
    imageToCrop := none
    pending := some .image
    log := m1.log ++ [.solveImage mimeType] }

/-- `handleTextSubmit` (App.tsx, lines 53–74) up to its `await`: a no-op when
the trimmed text is empty; otherwise record the submitted text, clear the
uploaded image (without revoking), enter `ANALYZING`, and invoke
`solveMathProblemFromText`. -/
def handleTextSubmit (m : AppModel) : AppModel :=
  if jsTrim m.textProblem = [] then m
  else
    { m with
      submittedText := some m.textProblem
      uploadedImage := none
      appState := .ANALYZING
      error := none
      solution := none
      pending := some .text
      log := m.log ++ [.solveText] }

/-- The continuation after the `await` in `handleCropConfirm` /
`handleTextSubmit` (App.tsx, lines 40–50 and 63–73): render the settled
promise through the matching geminiService wrapper, then apply the in-band
protocol — a result starting with `'Error:'` is re-thrown with the first
`'Error: '` occurrence removed and caught as `e.message ||
'An unexpected error occurred.'` into the `ERROR` state; any other result is
stored as the solution in the `SUCCESS` state. A no-op if no solve is
outstanding. -/
def resolveSolve (m : AppModel) (outcome : SolveOutcome) : AppModel :=
  match m.pending with
  | none => m
  | some o =>
    let result := match o with
      | .image => solveMathProblemFromImage outcome
      | .text => solveMathProblemFromText outcome
    if jsStartsWith result ("Error:".toList) then
      let msg := jsReplaceFirst result ("Error: ".toList) []
      { m with
        error := some (if msg = [] then "An unexpected error occurred.".toList
                       else msg)
        appState := .ERROR
        pending := none }
    else
      { m with
        solution := some result
        appState := .SUCCESS
        pending := none }

/-- `handleReset` (App.tsx, lines 76–90): back to `IDLE`, clear every field,
and revoke the object URLs captured for `uploadedImage` and `imageToCrop`
(each at most once; `release` only touches the handle ledger, so the order
relative to the field clears is immaterial). -/
def handleReset (m : AppModel) : AppModel :=
  let m1 := match m.uploadedImage with
    | some h => release m h
    | none => m
  let m2 := match m.imageToCrop with
    | some hf => release m1 hf.1
    | none => m1
  { m2 with
    appState := .IDLE
    uploadedImage := none
    imageToCrop := none
    solution := none
    error := none
    textProblem := []
    submittedText := none }

/-- Discrete input events of one session. `confirmCrop` carries the loaded
image's geometry, the completed crop, the device pixel ratio and context
availability; `solveReturned` is the settling of the outstanding solver
promise. -/
inductive Ev where
  | selectImage (fileType : JSStr)
  | confirmCrop (img : ImageEl) (crop : Rect) (devicePixelRatio : ℚ)
      (ctxOk : Bool)
  | cancelCrop
  | submitText
  | solveReturned (outcome : SolveOutcome)
  | reset
deriving DecidableEq

/-- The session state machine: each handler guarded by the JSX of `App.tsx`
(lines 92–222) — the uploader is rendered only in `IDLE` and `ImageUploader`
accepts only files whose type starts with `'image/'`; the text form is
rendered only in `IDLE` (and the handler re-checks the trimmed text); the
crop modal is rendered only in `CROPPING` with a pending image, and its
confirm button requires a completed crop (carried by the event); the reset
button is rendered only in `SUCCESS`/`ERROR`. A guarded-out event leaves the
model unchanged. -/
def step (m : AppModel) (e : Ev) : AppModel :=
  match e with
  | .selectImage fileType =>
    if m.appState = .IDLE ∧ jsStartsWith fileType ("image/".toList) then
      handleImageSelect m fileType
    else m
  | .confirmCrop img crop d ctxOk =>
    if m.appState = .CROPPING ∧ m.imageToCrop ≠ none then
      match handleConfirmCrop img crop d ctxOk with
      | none => m
      | some pm => handleCropConfirmStart m pm.2
    else m
  | .cancelCrop =>
    if m.appState = .CROPPING ∧ m.imageToCrop ≠ none then handleReset m else m
  | .submitText =>
    if m.appState = .IDLE then handleTextSubmit m else m
  | .solveReturned outcome => resolveSolve m outcome
  | .reset =>
    if m.appState = .SUCCESS ∨ m.appState = .ERROR then handleReset m else m

/-- The fresh session: every `useState` initial value of `App.tsx`, with an
empty handle ledger and call log. -/
def initModel : AppModel :=
  { appState := .IDLE
    imageToCrop := none
    uploadedImage := none
    textProblem := []
    submittedText := none
    solution := none
    error := none
    pending := none
    nextId := 0
    live := []
    releases := []
    log := [] }

/-- Run a list of events from a model. -/
def run (m : AppModel) (es : List Ev) : AppModel :=
  es.foldl step m

/-! ## Concrete fixtures used by counterexamples and witnesses -/

instance {ε α : Type} [DecidableEq ε] [DecidableEq α] :
    DecidableEq (Except ε α) := fun a b =>
  match a, b with
  | .error x, .error y =>
    if h : x = y then .isTrue (by rw [h])
    else .isFalse (fun hh => h (by injection hh))
  | .ok x, .ok y =>
    if h : x = y then .isTrue (by rw [h])
    else .isFalse (fun hh => h (by injection hh))
  | .error _, .ok _ => .isFalse (fun hh => Except.noConfusion hh)
  | .ok _, .error _ => .isFalse (fun hh => Except.noConfusion hh)

/-- A loaded preview image: 200×300 source pixels displayed at 100×100. -/
def imgA : ImageEl :=
  { naturalWidth := 200, naturalHeight := 300, width := 100, height := 100 }

/-- An ordinary completed crop over `imgA`. -/
def cropA : Rect := { x := 10, y := 20, width := 50, height := 40 }

/-- A degenerate completed crop with zero width. -/
def zeroCrop : Rect := { x := 10, y := 10, width := 0, height := 50 }

/-- A session that has just submitted (image origin) and awaits the solver:
the state right after `handleCropConfirmStart` ran on a fresh crop flow. -/
def analyzingModel : AppModel :=
  { appState := .ANALYZING
    imageToCrop := none
    uploadedImage := some 1
    textProblem := []
    submittedText := none
    solution := none
    error := none
    pending := some .image
    nextId := 2
    live := [0, 1]
    releases := []
    log := [.solveImage ("image/jpeg".toList)] }

/-- A session in the crop modal with a pending image. -/
def croppingModel : AppModel :=
  { appState := .CROPPING
    imageToCrop := some (0, "image/png".toList)
    uploadedImage := none
    textProblem := []
    submittedText := none
    solution := none
    error := none
    pending := none
    nextId := 1
    live := [0]
    releases := []
    log := [] }

/-- The scripted sequence of spec §8's lifecycle property: select image A,
confirm its crop, let the solve succeed, reset; then the same again with
image B. -/
def lifecycleScript : List Ev :=
  [ .selectImage ("image/png".toList)
  , .confirmCrop imgA cropA 1 true
  , .solveReturned (.ok ("## Final Answer".toList))
  , .reset
  , .selectImage ("image/png".toList)
  , .confirmCrop imgA cropA 1 true
  , .solveReturned (.ok ("solved".toList))
  , .reset ]

/-! ## Helper lemmas -/

/-- Any text of the form `"Error: " ++ rest` passes the `startsWith('Error:')`
check of `App.tsx` (stated over the explicit character lists the two string
literals denote). -/
theorem errTag_starts (rest : JSStr) :
    jsStartsWith ('E' :: 'r' :: 'r' :: 'o' :: 'r' :: ':' :: ' ' :: rest)
      (['E', 'r', 'r', 'o', 'r', ':']) = true := rfl

/-- `replace('Error: ', '')` on text of the form `"Error: " ++ rest` strips
exactly the leading tag. -/
theorem errTag_strip (rest : JSStr) :
    jsReplaceFirst ('E' :: 'r' :: 'r' :: 'o' :: 'r' :: ':' :: ' ' :: rest)
      (['E', 'r', 'r', 'o', 'r', ':', ' ']) [] = rest := by
  simp [jsReplaceFirst]

/-- The image-path fallback for a non-`Error` thrown value does not carry the
`'Error:'` tag — this is what lets it masquerade as a solution. -/
theorem unknownImage_no_tag :
    jsStartsWith unknownImageError (['E', 'r', 'r', 'o', 'r', ':']) = false :=
  rfl

/-- `handleImageSelect` always lands in `CROPPING`. -/
theorem handleImageSelect_appState (m : AppModel) (ft : JSStr) :
    (handleImageSelect m ft).appState = .CROPPING := by
  unfold handleImageSelect
  cases m.imageToCrop <;> rfl

/-- `handleReset` always lands in `IDLE`. -/
theorem handleReset_appState (m : AppModel) :
    (handleReset m).appState = .IDLE := by
  unfold handleReset
  cases m.uploadedImage <;> cases m.imageToCrop <;> rfl

/-- A no-op resolution when no solve is outstanding. -/
theorem resolveSolve_pending_none (m : AppModel) (outcome : SolveOutcome)
    (hp : m.pending = none) : resolveSolve m outcome = m := by
  unfold resolveSolve
  rw [hp]

/-- With a solve outstanding, resolution always lands in `ERROR` or
`SUCCESS`. -/
theorem resolveSolve_appState (m : AppModel) (outcome : SolveOutcome)
    (o : Origin) (hp : m.pending = some o) :
    (resolveSolve m outcome).appState = .ERROR ∨
    (resolveSolve m outcome).appState = .SUCCESS := by
  unfold resolveSolve
  rw [hp]
  dsimp only
  split
  · exact Or.inl rfl
  · exact Or.inr rfl

/-! ## Claim theorems -/

/-- C4: for every display frame with positive dimensions and every selection
rectangle, the source rectangle sampled by `getCroppedImg`'s single
`drawImage` call is exactly the spec's `mapSelection`: each component of the
crop scaled by `scaleX = naturalWidth/displayWidth` respectively
`scaleY = naturalHeight/displayHeight`, X and Y independent. `getCroppedImg`
is a pure function of its inputs, so the mapping has no side effects. -/
theorem mapping_matches_spec (image : ImageEl) (crop : Rect) (fileType : JSStr)
    (d : ℚ) (hw : 0 < image.width) (hh : 0 < image.height) :
    ∃ r, getCroppedImg image crop fileType d true = .ok r ∧
      (⟨r.srcX, r.srcY, r.srcW, r.srcH⟩ : SourceRect) =
        mapSelectionSpec image.naturalWidth image.naturalHeight
          image.width image.height crop := by
  refine ⟨_, rfl, ?_⟩
  simp [getCroppedImg, mapSelectionSpec]

/-- C4 witness: the mapping equality at a concrete 200×300 image displayed at
100×100 with a concrete crop and density 2. -/
theorem mapping_matches_spec_witness :
    0 < imgA.width ∧ 0 < imgA.height ∧
    (∃ r, getCroppedImg imgA cropA ("image/jpeg".toList) 2 true = .ok r ∧
      (⟨r.srcX, r.srcY, r.srcW, r.srcH⟩ : SourceRect) =
        mapSelectionSpec imgA.naturalWidth imgA.naturalHeight
          imgA.width imgA.height cropA) :=
  ⟨by norm_num [imgA], by norm_num [imgA],
    mapping_matches_spec imgA cropA ("image/jpeg".toList) 2
      (by norm_num [imgA]) (by norm_num [imgA])⟩

/-- C5: for every confirmed selection of display size w×h extracted at device
pixel density d (density at least 1, as spec §4.2 requires), the output
raster is allocated at exactly `w*d × h*d` pixels — the dimensions the
encoded payload decodes to — while the sampled source region is exactly the
mapped rectangle, drawn in a single blit with `imageSmoothingQuality` set to
`'high'` (the maximum). -/
theorem raster_allocation (image : ImageEl) (crop : Rect) (fileType : JSStr)
    (d : ℚ) (hd : 1 ≤ d) :
    ∃ r, getCroppedImg image crop fileType d true = .ok r ∧
      r.canvasWidth = crop.width * d ∧
      r.canvasHeight = crop.height * d ∧
      r.transform = d ∧
      r.srcX = crop.x * (image.naturalWidth / image.width) ∧
      r.srcY = crop.y * (image.naturalHeight / image.height) ∧
      r.srcW = crop.width * (image.naturalWidth / image.width) ∧
      r.srcH = crop.height * (image.naturalHeight / image.height) ∧
      r.blits = 1 ∧
      r.smoothing = .high := by
  have hd0 : ¬(d = 0) := by
    intro h
    rw [h] at hd
    norm_num at hd
  refine ⟨_, rfl, ?_, ?_, ?_, rfl, rfl, rfl, rfl, rfl, rfl⟩ <;>
    simp [getCroppedImg, if_neg hd0]

/-- C5 witness: the raster allocation at a concrete crop and density 2. -/
theorem raster_allocation_witness :
    (1 : ℚ) ≤ 2 ∧
    (∃ r, getCroppedImg imgA cropA ("image/jpeg".toList) 2 true = .ok r ∧
      r.canvasWidth = cropA.width * 2 ∧
      r.canvasHeight = cropA.height * 2 ∧
      r.transform = 2 ∧
      r.srcX = cropA.x * (imgA.naturalWidth / imgA.width) ∧
      r.srcY = cropA.y * (imgA.naturalHeight / imgA.height) ∧
      r.srcW = cropA.width * (imgA.naturalWidth / imgA.width) ∧
      r.srcH = cropA.height * (imgA.naturalHeight / imgA.height) ∧
      r.blits = 1 ∧
      r.smoothing = .high) :=
  ⟨by norm_num, raster_allocation imgA cropA ("image/jpeg".toList) 2 (by norm_num)⟩

/-- C6: for every display frame with positive display dimensions (and
non-negative natural dimensions) and every in-bounds selection rectangle,
the mapped source rectangle lies entirely within
`[0, naturalWidth] × [0, naturalHeight]`. No clamping occurs in the code —
the mapping is the raw per-component scaling (see `mapping_matches_spec`) —
so the containment is purely arithmetic. -/
theorem mapped_rect_in_bounds (image : ImageEl) (crop : Rect) (fileType : JSStr)
    (d : ℚ)
    (hdw : 0 < image.width) (hdh : 0 < image.height)
    (hnw : 0 ≤ image.naturalWidth) (hnh : 0 ≤ image.naturalHeight)
    (hx : 0 ≤ crop.x) (hy : 0 ≤ crop.y)
    (hw : 0 < crop.width) (hh : 0 < crop.height)
    (hxw : crop.x + crop.width ≤ image.width)
    (hyh : crop.y + crop.height ≤ image.height) :
    ∃ r, getCroppedImg image crop fileType d true = .ok r ∧
      0 ≤ r.srcX ∧ 0 ≤ r.srcY ∧
      r.srcX + r.srcW ≤ image.naturalWidth ∧
      r.srcY + r.srcH ≤ image.naturalHeight := by
  refine ⟨_, rfl, ?_, ?_, ?_, ?_⟩
  · exact mul_nonneg hx (div_nonneg hnw hdw.le)
  · exact mul_nonneg hy (div_nonneg hnh hdh.le)
  · show crop.x * (image.naturalWidth / image.width) +
        crop.width * (image.naturalWidth / image.width) ≤ image.naturalWidth
    have h1 : crop.x * (image.naturalWidth / image.width) +
        crop.width * (image.naturalWidth / image.width) =
        (crop.x + crop.width) * (image.naturalWidth / image.width) := by ring
    have h2 : (crop.x + crop.width) * (image.naturalWidth / image.width) ≤
        image.width * (image.naturalWidth / image.width) :=
      mul_le_mul_of_nonneg_right hxw (div_nonneg hnw hdw.le)
    have h3 : image.width * (image.naturalWidth / image.width) =
        image.naturalWidth := by
      rw [mul_comm]
      exact div_mul_cancel₀ image.naturalWidth hdw.ne'
    rw [h1]
    rw [h3] at h2
    exact h2
  · show crop.y * (image.naturalHeight / image.height) +
        crop.height * (image.naturalHeight / image.height) ≤ image.naturalHeight
    have h1 : crop.y * (image.naturalHeight / image.height) +
        crop.height * (image.naturalHeight / image.height) =
        (crop.y + crop.height) * (image.naturalHeight / image.height) := by ring
    have h2 : (crop.y + crop.height) * (image.naturalHeight / image.height) ≤
        image.height * (image.naturalHeight / image.height) :=
      mul_le_mul_of_nonneg_right hyh (div_nonneg hnh hdh.le)
    have h3 : image.height * (image.naturalHeight / image.height) =
        image.naturalHeight := by
      rw [mul_comm]
      exact div_mul_cancel₀ image.naturalHeight hdh.ne'
    rw [h1]
    rw [h3] at h2
    exact h2

/-- C6 witness: containment at the concrete frame and crop. -/
theorem mapped_rect_in_bounds_witness :
    (0 : ℚ) < imgA.width ∧ 0 ≤ cropA.x ∧
    cropA.x + cropA.width ≤ imgA.width ∧
    (∃ r, getCroppedImg imgA cropA ("image/jpeg".toList) 1 true = .ok r ∧
      0 ≤ r.srcX ∧ 0 ≤ r.srcY ∧
      r.srcX + r.srcW ≤ imgA.naturalWidth ∧
      r.srcY + r.srcH ≤ imgA.naturalHeight) :=
  ⟨by norm_num [imgA], by norm_num [cropA], by norm_num [imgA, cropA],
    mapped_rect_in_bounds imgA cropA ("image/jpeg".toList) 1
      (by norm_num [imgA]) (by norm_num [imgA]) (by norm_num [imgA])
      (by norm_num [imgA]) (by norm_num [cropA]) (by norm_num [cropA])
      (by norm_num [cropA]) (by norm_num [cropA])
      (by norm_num [imgA, cropA]) (by norm_num [imgA, cropA])⟩

/-- C3 counterexample: invoked in `Selecting` (`croppingModel`) with a
zero-width completed crop and a working 2d context, the extractor does NOT
fail with `InvalidRegion` — `getCroppedImg` performs no size check and
succeeds — and the session does not remain in `Selecting`: the confirm flow
proceeds to `ANALYZING`. -/
theorem zero_width_crop_cex :
    getCroppedImg imgA zeroCrop ("image/jpeg".toList) 1 true ≠
      Except.error CropError.invalidRegion ∧
    (∃ r, getCroppedImg imgA zeroCrop ("image/jpeg".toList) 1 true =
      Except.ok r) ∧
    (step croppingModel (.confirmCrop imgA zeroCrop 1 true)).appState =
      AppState.ANALYZING := by
  refine ⟨by decide, ⟨_, rfl⟩, by decide⟩

/-- C3 amended: the extractor performs no defensive size check. With a
drawing context available, extraction succeeds even for a rect of
non-positive width or height and the session proceeds to `Processing`; the
only extraction failure is an unavailable drawing context
(`contextUnavailable`, the code's `'Could not get canvas context.'`
rejection), and on that failure the session remains in `Selecting`
unchanged. -/
theorem extraction_no_size_check (m : AppModel) (img : ImageEl) (crop : Rect)
    (d : ℚ) (hs : m.appState = .CROPPING) (hi : m.imageToCrop ≠ none) :
    (∃ r, getCroppedImg img crop ("image/jpeg".toList) d true = .ok r) ∧
    (step m (.confirmCrop img crop d true)).appState = .ANALYZING ∧
    getCroppedImg img crop ("image/jpeg".toList) d false =
      .error .contextUnavailable ∧
    step m (.confirmCrop img crop d false) = m := by
  refine ⟨⟨_, rfl⟩, ?_, rfl, ?_⟩
  · simp [step, hs, hi, handleConfirmCrop, getCroppedImg,
      handleCropConfirmStart, acquire]
  · simp [step, hs, hi, handleConfirmCrop, getCroppedImg]

/-- C3 amended witness: instantiated at the zero-width crop in the concrete
`Selecting` session. -/
theorem extraction_no_size_check_witness :
    croppingModel.appState = AppState.CROPPING ∧
    croppingModel.imageToCrop ≠ none ∧
    ((∃ r, getCroppedImg imgA zeroCrop ("image/jpeg".toList) 1 true = .ok r) ∧
     (step croppingModel (.confirmCrop imgA zeroCrop 1 true)).appState =
       .ANALYZING ∧
     getCroppedImg imgA zeroCrop ("image/jpeg".toList) 1 false =
       .error .contextUnavailable ∧
     step croppingModel (.confirmCrop imgA zeroCrop 1 false) = croppingModel) :=
  ⟨rfl, by decide,
    extraction_no_size_check croppingModel imgA zeroCrop 1 rfl (by decide)⟩

/-- C10: for every confirmed crop — whatever media type the uploaded file has
(`m.imageToCrop` carries it, and the theorem quantifies over all models) —
the modal encodes the region via `toDataURL('image/jpeg')` and calls
`onConfirm` with mime type `'image/jpeg'`, and the solve collaborator is
invoked with exactly that mime type; the uploaded file's own type is never
consulted. -/
theorem crop_submits_jpeg (m : AppModel) (img : ImageEl) (crop : Rect) (d : ℚ)
    (hs : m.appState = .CROPPING) (hi : m.imageToCrop ≠ none) :
    (∃ res, handleConfirmCrop img crop d true =
        some (res, "image/jpeg".toList) ∧
      res.payloadType = "image/jpeg".toList) ∧
    (step m (.confirmCrop img crop d true)).log =
      m.log ++ [.solveImage ("image/jpeg".toList)] := by
  constructor
  · exact ⟨_, rfl, rfl⟩
  · simp [step, hs, hi, handleConfirmCrop, getCroppedImg,
      handleCropConfirmStart, acquire]

/-- C10 witness: the concrete `Selecting` session uploaded a PNG
(`croppingModel.imageToCrop` carries `'image/png'`), yet the submission goes
out tagged `'image/jpeg'`. -/
theorem crop_submits_jpeg_witness :
    croppingModel.imageToCrop = some (0, "image/png".toList) ∧
    ((∃ res, handleConfirmCrop imgA cropA 2 true =
        some (res, "image/jpeg".toList) ∧
      res.payloadType = "image/jpeg".toList) ∧
     (step croppingModel (.confirmCrop imgA cropA 2 true)).log =
       croppingModel.log ++ [.solveImage ("image/jpeg".toList)]) :=
  ⟨rfl, crop_submits_jpeg croppingModel imgA cropA 2 rfl (by decide)⟩

/-- C1 counterexample: when the external solve call throws a non-`Error`
value (an error carrying no message), `solveMathProblemFromImage` returns its
fallback string WITHOUT the `'Error:'` tag, so `handleCropConfirm`'s
continuation stores it as the solution and the session transitions to
`SUCCESS`, not to `Failed`. -/
theorem solve_no_message_cex :
    (resolveSolve analyzingModel (.threw .nonError)).appState ≠
      AppState.ERROR ∧
    (resolveSolve analyzingModel (.threw .nonError)).appState =
      AppState.SUCCESS ∧
    (resolveSolve analyzingModel (.threw .nonError)).solution =
      some unknownImageError := by
  decide

/-- C1 amended: a solve-call failure thrown as an `Error` instance always
transitions the session to `Failed`, an empty message being surfaced as the
generic fallback `'An unexpected error occurred.'`; a failure thrown as a
non-`Error` value is mapped to the service's generic fallback string but is
surfaced as the solution of a `Success` state; in all cases the session
leaves `Processing`. -/
theorem solve_failure_amended (m : AppModel) (msg : JSStr)
    (outcome : SolveOutcome) (hp : m.pending = some .image) :
    (resolveSolve m (.threw (.errorInstance msg))).appState = .ERROR ∧
    (resolveSolve m (.threw (.errorInstance msg))).error =
      some (if msg = [] then "An unexpected error occurred.".toList
            else msg) ∧
    (resolveSolve m (.threw .nonError)).appState = .SUCCESS ∧
    (resolveSolve m (.threw .nonError)).solution = some unknownImageError ∧
    (resolveSolve m outcome).appState ≠ .ANALYZING := by
  refine ⟨?_, ?_, ?_, ?_, ?_⟩
  · simp [resolveSolve, hp, solveMathProblemFromImage, errTag_starts,
      errTag_strip]
  · simp [resolveSolve, hp, solveMathProblemFromImage, errTag_starts,
      errTag_strip]
  · simp [resolveSolve, hp, solveMathProblemFromImage, unknownImage_no_tag]
  · simp [resolveSolve, hp, solveMathProblemFromImage, unknownImage_no_tag]
  · rcases resolveSolve_appState m outcome Origin.image hp with h | h <;>
      rw [h] <;> decide

/-- C1 amended witness: at the concrete awaiting-image session, with an
`Error` instance carrying the empty message and a successful outcome for the
leaves-`Processing` conjunct. -/
theorem solve_failure_amended_witness :
    analyzingModel.pending = some Origin.image ∧
    ((resolveSolve analyzingModel (.threw (.errorInstance []))).appState =
       .ERROR ∧
     (resolveSolve analyzingModel (.threw (.errorInstance []))).error =
       some (if ([] : JSStr) = [] then "An unexpected error occurred.".toList
             else []) ∧
     (resolveSolve analyzingModel (.threw .nonError)).appState = .SUCCESS ∧
     (resolveSolve analyzingModel (.threw .nonError)).solution =
       some unknownImageError ∧
     (resolveSolve analyzingModel (.ok ("done".toList))).appState ≠
       .ANALYZING) :=
  ⟨rfl, solve_failure_amended analyzingModel [] (.ok ("done".toList)) rfl⟩

/-- C7 counterexample: a solver response consisting of exactly the prefix
`'Error: '` (empty remainder) transitions to `Failed`, but the message is
the generic fallback `'An unexpected error occurred.'` rather than the empty
remainder — `e.message || fallback` discards the empty string. -/
theorem error_prefix_empty_remainder_cex :
    (resolveSolve analyzingModel (.ok ("Error: ".toList))).appState =
      AppState.ERROR ∧
    (resolveSolve analyzingModel (.ok ("Error: ".toList))).error ≠
      some ([] : JSStr) ∧
    (resolveSolve analyzingModel (.ok ("Error: ".toList))).error =
      some ("An unexpected error occurred.".toList) := by
  decide

/-- C7 amended: whenever the external solve call completes with text
beginning with the literal prefix `'Error: '`, the session transitions to
`Failed` carrying the remainder of that text as its message when the
remainder is non-empty, and the generic fallback
`'An unexpected error occurred.'` when the remainder is empty; in particular
`'Error: rate limited'` yields `Failed` with message `'rate limited'`. -/
theorem error_prefix_amended (m : AppModel) (rest : JSStr)
    (hp : m.pending = some .image) :
    (resolveSolve m (.ok ("Error: ".toList ++ rest))).appState = .ERROR ∧
    (resolveSolve m (.ok ("Error: ".toList ++ rest))).error =
      some (if rest = [] then "An unexpected error occurred.".toList
            else rest) := by
  constructor <;>
    simp [resolveSolve, hp, solveMathProblemFromImage, errTag_starts,
      errTag_strip]

/-- C7 amended witness: the spec scenario — the solver returns
`'Error: rate limited'` and the session becomes `Failed` with message
`'rate limited'`. -/
theorem error_prefix_amended_witness :
    analyzingModel.pending = some Origin.image ∧
    (resolveSolve analyzingModel
      (.ok ("Error: ".toList ++ "rate limited".toList))).appState =
      AppState.ERROR ∧
    (resolveSolve analyzingModel
      (.ok ("Error: ".toList ++ "rate limited".toList))).error =
      some ("rate limited".toList) := by
  have h := error_prefix_amended analyzingModel ("rate limited".toList) rfl
  refine ⟨rfl, h.1, ?_⟩
  rw [h.2, if_neg (by decide : ¬("rate limited".toList = ([] : JSStr)))]

/-- C8: from `Idle`, submitting text enters `Processing` with text origin
exactly when the trimmed text is non-empty (empty or whitespace-only text
leaves the session unchanged); the flow records only a text-solver
invocation — no extraction, no image submission — and when the solver
returns a non-error-tagged result the session becomes `Success` holding
exactly that text, with the submitted problem as its origin and no image
attached. -/
theorem text_submit_flow (m : AppModel) (result : JSStr)
    (hs : m.appState = .IDLE) :
    ((step m .submitText).appState = .ANALYZING ↔ jsTrim m.textProblem ≠ []) ∧
    (jsTrim m.textProblem = [] → step m .submitText = m) ∧
    (jsTrim m.textProblem ≠ [] →
      jsStartsWith result ("Error:".toList) = false →
      (step m .submitText).pending = some .text ∧
      (step m .submitText).log = m.log ++ [.solveText] ∧
      (step m .submitText).uploadedImage = none ∧
      (run m [.submitText, .solveReturned (.ok result)]).appState =
        .SUCCESS ∧
      (run m [.submitText, .solveReturned (.ok result)]).solution =
        some result ∧
      (run m [.submitText, .solveReturned (.ok result)]).submittedText =
        some m.textProblem ∧
      (run m [.submitText, .solveReturned (.ok result)]).uploadedImage =
        none) := by
  by_cases ht : jsTrim m.textProblem = []
  · refine ⟨?_, fun _ => ?_, fun hcon _ => absurd ht hcon⟩
    · simp [step, hs, handleTextSubmit, ht]
    · simp [step, hs, handleTextSubmit, ht]
  · refine ⟨?_, fun hcon => absurd hcon ht, fun _ hres => ?_⟩
    · simp [step, hs, handleTextSubmit, ht]
    · have hres' : jsStartsWith result (['E', 'r', 'r', 'o', 'r', ':']) =
        false := hres
      refine ⟨?_, ?_, ?_, ?_, ?_, ?_, ?_⟩ <;>
        simp [run, step, hs, handleTextSubmit, ht, resolveSolve,
          solveMathProblemFromText, hres']

/-- C8 witness: the spec scenario — submit `'2x+5=15'`, the solver returns
`'## Final Answer\n$$x=5$$'`, and the session is `Success` with exactly that
text and the submitted problem as origin. -/
theorem text_submit_flow_witness :
    ({ initModel with textProblem := "2x+5=15".toList } : AppModel).appState =
      AppState.IDLE ∧
    jsTrim ("2x+5=15".toList) ≠ [] ∧
    (run { initModel with textProblem := "2x+5=15".toList }
      [.submitText,
       .solveReturned (.ok ("## Final Answer\n$$x=5$$".toList))]).appState =
      AppState.SUCCESS ∧
    (run { initModel with textProblem := "2x+5=15".toList }
      [.submitText,
       .solveReturned (.ok ("## Final Answer\n$$x=5$$".toList))]).solution =
      some ("## Final Answer\n$$x=5$$".toList) ∧
    (run { initModel with textProblem := "2x+5=15".toList }
      [.submitText,
       .solveReturned
         (.ok ("## Final Answer\n$$x=5$$".toList))]).submittedText =
      some ("2x+5=15".toList) := by
  have h := (text_submit_flow
    { initModel with textProblem := "2x+5=15".toList }
    ("## Final Answer\n$$x=5$$".toList) rfl).2.2 (by decide) (by decide)
  exact ⟨rfl, by decide, h.2.2.2.1, h.2.2.2.2.1, h.2.2.2.2.2.1⟩

/-- C9: at most one `Processing` is ever in flight. Entering `ANALYZING` is
possible only from `IDLE` (text submission) or `CROPPING` (crop
confirmation); and while the session is in `ANALYZING` every user event —
image selection, crop confirmation or cancellation, text submission, reset —
is a no-op, because the triggering controls are unmounted or disabled there
(only the settling of the outstanding solver promise moves the session on). -/
theorem single_processing (m : AppModel) (e : Ev) :
    (m.appState ≠ .ANALYZING → (step m e).appState = .ANALYZING →
      m.appState = .IDLE ∨ m.appState = .CROPPING) ∧
    (m.appState = .ANALYZING → (∀ o, e ≠ .solveReturned o) →
      step m e = m) := by
  constructor
  · intro hne hstep
    cases e with
    | selectImage ft =>
      simp only [step] at hstep
      split at hstep
      · next g => exact Or.inl g.1
      · exact absurd hstep hne
    | confirmCrop img crop d ctxOk =>
      simp only [step] at hstep
      split at hstep
      · next g => exact Or.inr g.1
      · exact absurd hstep hne
    | cancelCrop =>
      simp only [step] at hstep
      split at hstep
      · next g => exact Or.inr g.1
      · exact absurd hstep hne
    | submitText =>
      simp only [step] at hstep
      split at hstep
      · next g => exact Or.inl g
      · exact absurd hstep hne
    | solveReturned outcome =>
      simp only [step] at hstep
      rcases hpd : m.pending with _ | o
      · rw [resolveSolve_pending_none m outcome hpd] at hstep
        exact absurd hstep hne
      · rcases resolveSolve_appState m outcome o hpd with h | h <;>
          rw [hstep] at h <;> exact AppState.noConfusion h
    | reset =>
      simp only [step] at hstep
      split at hstep
      · rw [handleReset_appState] at hstep
        exact AppState.noConfusion hstep
      · exact absurd hstep hne
  · intro h hno
    cases e with
    | selectImage ft => simp [step, h]
    | confirmCrop img crop d ctxOk => simp [step, h]
    | cancelCrop => simp [step, h]
    | submitText => simp [step, h]
    | solveReturned outcome => exact absurd rfl (hno outcome)
    | reset => simp [step, h]

/-- C9 witness: in the concrete awaiting session, a second text submission
(with a non-empty problem typed) and a second image selection are both
no-ops. -/
theorem single_processing_witness :
    analyzingModel.appState = AppState.ANALYZING ∧
    step { analyzingModel with textProblem := "2+2".toList } .submitText =
      { analyzingModel with textProblem := "2+2".toList } ∧
    step analyzingModel (.selectImage ("image/png".toList)) = analyzingModel :=
  ⟨rfl,
    (single_processing { analyzingModel with textProblem := "2+2".toList }
      .submitText).2 rfl (fun o h => Ev.noConfusion h),
    (single_processing analyzingModel (.selectImage ("image/png".toList))).2
      rfl (fun o h => Ev.noConfusion h)⟩

/-- C2 counterexample: running the scripted sequence — select image A,
confirm its crop, solve succeeds, reset; select image B, confirm its crop,
solve succeeds, reset — does NOT end with zero live handles. Handles 0 and 2
(the two source-image object URLs created on selection) are still live at
the end: `handleCropConfirm` clears `imageToCrop` without revoking its URL,
so confirming a crop leaks the source-image handle. -/
theorem lifecycle_script_leaks :
    (run initModel lifecycleScript).live = [0, 2] ∧
    (run initModel lifecycleScript).live.length ≠ 0 := by
  decide

/-- C2 amended: across the scripted sequence, four handles are acquired
(0 and 2 for the two source images, 1 and 3 for the two extracted-region
previews); the extracted-region handles are each released exactly once (on
the two resets, in order, with no double-release), but the two source-image
handles are never released — confirming a crop drops the source image
without a `release`, so the sequence ends with those two handles live
instead of zero. Cancellation, replacement and reset are the only releasing
paths. -/
theorem lifecycle_script_ledger :
    (run initModel lifecycleScript).nextId = 4 ∧
    (run initModel lifecycleScript).releases = [1, 3] ∧
    (run initModel lifecycleScript).releases.Nodup ∧
    (run initModel lifecycleScript).live = [0, 2] ∧
    (run initModel lifecycleScript).appState = AppState.IDLE := by
  decide
